import Mathlib

/-
Verification of the lifecycle orchestrator in src/src/typesense_server_utils.cpp.
The C++ functions are embedded shallowly: the Option<T> result class becomes
TsOption, the filesystem becomes a map from paths to optional contents,
machine integers become Nat with explicit masking where overflow matters,
and the peering thread plus its maintenance loop become explicit event traces
driven by a fuel-bounded step function.
-/

namespace Typesense

/-- Result type mirroring the Option<T> class used by the codebase: either an
ok value or an error carrying an HTTP-like code and a message. -/
inductive TsOption (α : Type) where
  | ok (value : α)
  | err (code : Int) (message : String)
deriving DecidableEq, Repr

/-- The filesystem seen by fetch_file_contents: a path maps to the file
content when the file exists, none when it does not. -/
def FileSys : Type := String → Option String

/-- Embedding of fetch_file_contents (lines 52-62): a missing file yields the
404 error with the given message, an existing file yields its full content
(the istreambuf read copies the bytes verbatim, whitespace included). -/
def fetch_file_contents (fs : FileSys) (file_path : String) : TsOption String :=
  match fs file_path with
  | none => TsOption.err 404 ("File does not exist at: " ++ file_path)
  | some content => TsOption.ok content

/-- Embedding of fetch_nodes_config (lines 150-169): an empty path yields ok
with the empty string; otherwise the file is read, a read failure is wrapped
into a 500 error, empty content is a distinct 500 error, and non-empty
content is returned as is. -/
def fetch_nodes_config (fs : FileSys) (path_to_nodes : String) : TsOption String :=
  if path_to_nodes = "" then TsOption.ok ""
  else
    match fetch_file_contents fs path_to_nodes with
    | TsOption.err _ e =>
        TsOption.err 500 ("Error reading file containing nodes configuration: " ++ e)
    | TsOption.ok c =>
        if c = "" then TsOption.err 500 "File containing nodes configuration is empty."
        else TsOption.ok c

/-- Embedding of init_root_logger (lines 111-148), reduced to its return
value: 0 when the log dir is unset (console logging) or exists, 1 when a
configured log dir does not exist. The glog calls only mutate logger state. -/
def init_root_logger (log_dir : String) (dir_exists : String → Bool) : Int :=
  if log_dir = "" then 0
  else if dir_exists log_dir = false then 1
  else 0

/-- Embedding of is_private_ip (lines 171-192) over a host-order address held
in a Nat: b1 and b2 are the top two bytes as the uint8_t casts compute them. -/
def is_private_ip (ip : Nat) : Bool :=
  let b1 := (ip >>> 24) % 256
  let b2 := (ip >>> 16) % 256
  if b1 = 10 then true
  else if b1 = 172 ∧ 16 ≤ b2 ∧ b2 ≤ 31 then true
  else if b1 = 192 ∧ b2 = 168 then true
  else false

/-- The netip != 0 && netbits != 0 guard of get_internal_ip (line 224): the
subnet constraint is consulted only when both parsed values are non-zero. -/
def constraint_active (netip netbits : Nat) : Bool :=
  decide (netip ≠ 0) && decide (netbits ≠ 0)

/-- The mask comparison of get_internal_ip (lines 225-226): mask is
0xFFFFFFFF shifted left by 32 - netbits, truncated to 32 bits, and the
interface matches when the masked network portions agree. -/
def subnet_match (netip netbits ipaddr : Nat) : Bool :=
  let mask := (0xFFFFFFFF <<< (32 - netbits)) % 2 ^ 32
  (netip &&& mask) == (ipaddr &&& mask)

/-- The loopback address 127.0.0.1 as a host-order integer. -/
def loopback_ip : Nat := 0x7F000001

/-- Embedding of the interface scan of get_internal_ip (lines 219-241): addrs
lists the AF_INET addresses of the local interfaces in iteration order, in
host order. The first private address is taken, except that under an active
constraint a private address outside the subnet is skipped; when the scan
finds nothing, the loopback address is returned. -/
def get_internal_ip (netip netbits : Nat) : List Nat → Nat
  | [] => loopback_ip
  | ip :: rest =>
    if is_private_ip ip then
      if constraint_active netip netbits then
        if subnet_match netip netbits ip then ip
        else get_internal_ip netip netbits rest
      else ip
    else get_internal_ip netip netbits rest

/-- An address the scan of get_internal_ip accepts: private, and inside the
subnet whenever the constraint is active. -/
def resolver_accepts (netip netbits ip : Nat) : Bool :=
  is_private_ip ip && (!constraint_active netip netbits || subnet_match netip netbits ip)

/-- Dotted-quad rendering of a host-order address, as inet_ntoa produces for
the address get_internal_ip returns. -/
def ip_to_string (ip : Nat) : String :=
  toString ((ip >>> 24) % 256) ++ "." ++ toString ((ip >>> 16) % 256) ++ "." ++
    toString ((ip >>> 8) % 256) ++ "." ++ toString (ip % 256)

/-- Observable actions of the orchestrator and of the peering thread, in the
order the source performs them. -/
inductive Ev where
  | logSingleNode
  | errNodesConfig (message : String)
  | errParseAddress
  | errAddService
  | errStartService
  | errStartState
  | refreshNodes (cfg : String)
  | warnRefreshFailed (message : String)
  | refreshCatchup (verbose : Bool)
  | doSnapshot
  | sleepOneSec
  | rsmShutdown
  | raftServerStop
  | raftServerJoin
  | indexerStop
  | indexerThreadJoin
  | serverPoolShutdown
  | appPoolShutdown
  | apiServerStop
  | dataDirError
  | masterDeprecatedError
  | warnSearchOnlyKey
  | poolsCreated
  | storesCreated
  | apiServerCreated
  | indexerCreated
  | rsmCreated
  | raftThreadSpawn
  | indexThreadSpawn
  | apiServe
deriving DecidableEq, Repr

/-- Outcome of one iteration of the maintenance loop: the events it emitted,
the raft_counter value after it, and whether it reached the sleep(1) call. -/
structure IterResult where
  events : List Ev
  counter : Nat
  slept : Bool
deriving DecidableEq, Repr

/-- The tail of a completed loop iteration (lines 319-330): catch-up refresh
every 3 ticks with the verbose flag true exactly on multiples of 9, snapshot
every 60 ticks, then the counter increment and the one second sleep. -/
def finish_iter (evs : List Ev) (t : Nat) : IterResult :=
  ⟨evs ++ (if t % 3 = 0 then [Ev.refreshCatchup (t % 9 == 0)] else [])
       ++ (if t % 60 = 0 then [Ev.doSnapshot] else [])
       ++ [Ev.sleepOneSec], t + 1, true⟩

/-- One iteration of the maintenance loop body (lines 305-331). fetch is the
outcome of fetch_nodes_config for this iteration; it is consulted only when
the membership refresh fires (t % 10 = 0). On a fetch failure the source
logs a warning and executes continue, so the rest of the body, the counter
increment, and the sleep are all skipped. -/
def sched_iter (fetch : TsOption String) (t : Nat) : IterResult :=
  if t % 10 = 0 then
    match fetch with
    | TsOption.err _ msg => ⟨[Ev.warnRefreshFailed msg], t, false⟩
    | TsOption.ok cfg => finish_iter [Ev.refreshNodes cfg] t
  else finish_iter [] t

/-- The maintenance loop (lines 304-331) run on fuel. quit k is the value of
the quit condition (quit_raft_service together with brpc IsAskedToQuit) as
observed at the k-th loop-condition check; fetches k is the nodes file read
the k-th iteration would perform. Returns the emitted events and, when the
loop observed quit within fuel checks, some final counter. -/
def sched_loop (fetches : Nat → TsOption String) (quit : Nat → Bool) :
    Nat → Nat → Nat → List Ev × Option Nat
  | 0, _, _ => ([], none)
  | fuel + 1, k, t =>
    if quit k = true then ([], some t)
    else
      let r := sched_iter (fetches k) t
      let rest := sched_loop fetches quit fuel (k + 1) r.counter
      (r.events ++ rest.1, rest.2)

/-- Events that the maintenance loop body can emit. -/
def loop_ev : Ev → Bool
  | Ev.refreshNodes _ => true
  | Ev.warnRefreshFailed _ => true
  | Ev.refreshCatchup _ => true
  | Ev.doSnapshot => true
  | Ev.sleepOneSec => true
  | _ => false

/-- Events that can precede the shutdown block on the peering thread: the
indexing thread spawn, the single-node log line, and the loop body events. -/
def pre_ev : Ev → Bool
  | Ev.indexThreadSpawn => true
  | Ev.logSingleNode => true
  | e => loop_ev e

/-- Results of the external calls start_raft_server makes: whether
butil str2ip accepts a given string, and whether braft add_service,
brpc Server Start and ReplicationState start return 0. -/
structure RaftEnv where
  str2ipOk : String → Bool
  addServiceOk : Bool
  serverStartOk : Bool
  rsmStartOk : Bool

/-- The address parse of start_raft_server (lines 259-267): an explicit
peering address is parsed directly; otherwise the address returned by
get_internal_ip is rendered and parsed. -/
def peering_parse_ok (env : RaftEnv) (peering_address : String)
    (netip netbits : Nat) (addrs : List Nat) : Bool :=
  if peering_address = "" then
    env.str2ipOk (ip_to_string (get_internal_ip netip netbits addrs))
  else env.str2ipOk peering_address

/-- How a modelled call ends: a normal return value, a process abort through
exit, or fuel exhaustion before the quit flag was observed. -/
inductive Outcome where
  | ret (code : Int)
  | exited (code : Int)
  | hang
deriving DecidableEq, Repr

/-- The shutdown block at the end of start_raft_server (lines 336-342):
replication state shutdown, then raft server stop, then its join. -/
def shutdown_tail : List Ev :=
  [Ev.rsmShutdown, Ev.raftServerStop, Ev.raftServerJoin]

/-- The teardown the raft thread lambda performs after start_raft_server
returns (lines 466-480): indexer stop and join, both pool shutdowns, then
the API server stop. -/
def teardown_tail : List Ev :=
  [Ev.indexerStop, Ev.indexerThreadJoin, Ev.serverPoolShutdown,
   Ev.appPoolShutdown, Ev.apiServerStop]

/-- The full shutdown sequence of the peering thread, in source order. -/
def shutdown_seq : List Ev := shutdown_tail ++ teardown_tail

/-- Embedding of start_raft_server (lines 244-347): nodes config fetch with
exit(-1) on failure, address parse with return -1 on failure, the three
bootstrap calls with exit(-1) on failure, then the maintenance loop followed
by the shutdown block and return 0. -/
def start_raft_server (env : RaftEnv) (fs : FileSys)
    (path_to_nodes peering_address : String) (netip netbits : Nat)
    (addrs : List Nat) (fetches : Nat → TsOption String) (quit : Nat → Bool)
    (fuel : Nat) : List Ev × Outcome :=
  let ev0 : List Ev := if path_to_nodes = "" then [Ev.logSingleNode] else []
  match fetch_nodes_config fs path_to_nodes with
  | TsOption.err _ msg => (ev0 ++ [Ev.errNodesConfig msg], Outcome.exited (-1))
  | TsOption.ok _ =>
    if peering_parse_ok env peering_address netip netbits addrs = false then
      (ev0 ++ [Ev.errParseAddress], Outcome.ret (-1))
    else if env.addServiceOk = false then
      (ev0 ++ [Ev.errAddService], Outcome.exited (-1))
    else if env.serverStartOk = false then
      (ev0 ++ [Ev.errStartService], Outcome.exited (-1))
    else if env.rsmStartOk = false then
      (ev0 ++ [Ev.errStartState], Outcome.exited (-1))
    else
      let L := sched_loop fetches quit fuel 0 0
      match L.2 with
      | some _ => (ev0 ++ L.1 ++ shutdown_tail, Outcome.ret 0)
      | none => (ev0 ++ L.1, Outcome.hang)

/-- The parts of the parsed configuration that run_server and
start_raft_server consult. netip and netbits are the already parsed peering
subnet values (both 0 when the option is absent or malformed). -/
structure ServerConfig where
  data_dir_exists : Bool
  master : String
  search_only_api_key : String
  nodes : String
  peering_address : String
  netip : Nat
  netbits : Nat

/-- Modelled from the spec: the blocking API request loop, HttpServer run, is
not part of this source file; per the exit-code mapping of the spec a normal
shutdown exits with 0, so the stopped loop reports 0. -/
def api_loop_ret_code : Int := 0

/-- What a modelled run_server call produces: the main-thread events up to and
including entering the API loop, the events of the spawned peering thread,
and the overall outcome. -/
structure RunResult where
  mainPre : List Ev
  peering : List Ev
  outcome : Outcome
deriving Repr

/-- Embedding of run_server (lines 349-513): data dir and deprecated flag
checks, construction of pools, stores, server, indexer and replication state,
spawn of the raft thread (which itself spawns the batch indexing thread and
runs start_raft_server, then the teardown of lines 466-480), and the API
loop on the main thread. An exit(-1) on the peering thread aborts the whole
process; otherwise run_server returns the API loop result. -/
def run_server (env : RaftEnv) (cfg : ServerConfig) (fs : FileSys)
    (addrs : List Nat) (fetches : Nat → TsOption String) (quit : Nat → Bool)
    (fuel : Nat) : RunResult :=
  if cfg.data_dir_exists = false then ⟨[Ev.dataDirError], [], Outcome.ret 1⟩
  else if cfg.master ≠ "" then ⟨[Ev.masterDeprecatedError], [], Outcome.ret 1⟩
  else
    let warn : List Ev :=
      if cfg.search_only_api_key ≠ "" then [Ev.warnSearchOnlyKey] else []
    let pre : List Ev := warn ++
      [Ev.poolsCreated, Ev.storesCreated, Ev.apiServerCreated,
       Ev.indexerCreated, Ev.rsmCreated, Ev.raftThreadSpawn]
    let R := start_raft_server env fs cfg.nodes cfg.peering_address
      cfg.netip cfg.netbits addrs fetches quit fuel
    match R.2 with
    | Outcome.exited c => ⟨pre, Ev.indexThreadSpawn :: R.1, Outcome.exited c⟩
    | Outcome.hang => ⟨pre ++ [Ev.apiServe], Ev.indexThreadSpawn :: R.1, Outcome.hang⟩
    | Outcome.ret _ =>
        ⟨pre ++ [Ev.apiServe], (Ev.indexThreadSpawn :: R.1) ++ teardown_tail,
         Outcome.ret api_loop_ret_code⟩

/-- The initial value of the quit_raft_service flag: zero initialised at
process start and assigned false again at the top of run_server (line 368). -/
def quit_raft_service_init : Bool := false

/-- The write performed by the interrupt handler catch_interrupt (lines
46-50) on the quit flag; the write after the API loop exits (line 491) is
the identical assignment to true. -/
def catch_interrupt (_current : Bool) : Bool := true

/-- A concrete external environment for witnesses: the ip parser accepts
exactly the loopback rendering and every bootstrap call succeeds. -/
def demo_env : RaftEnv :=
  ⟨fun s => s == "127.0.0.1", true, true, true⟩

/-- A concrete single-node configuration: data dir present, no deprecated
flags, no nodes path, explicit loopback peering address. -/
def demo_cfg : ServerConfig :=
  ⟨true, "", "", "", "127.0.0.1", 0, 0⟩

/-- A filesystem with no files. -/
def no_files : FileSys := fun _ => none

/-- A filesystem whose only file is an empty nodes file. -/
def empty_nodes_fs : FileSys :=
  fun p => if p = "/data/nodes" then some "" else none

/-- The demo configuration pointing at the empty nodes file. -/
def empty_nodes_cfg : ServerConfig :=
  ⟨true, "", "", "/data/nodes", "127.0.0.1", 0, 0⟩

/-- The demo configuration with an explicit peering address the ip parser
rejects. -/
def bad_addr_cfg : ServerConfig :=
  ⟨true, "", "", "", "not.an.ip", 0, 0⟩

/-- A successful single-node run in which quit is observed true at the first
loop check. -/
def demo_run : RunResult :=
  run_server demo_env demo_cfg no_files [] (fun _ => TsOption.ok "") (fun _ => true) 1

/-- A run against the existing but empty nodes file. -/
def empty_nodes_run : RunResult :=
  run_server demo_env empty_nodes_cfg empty_nodes_fs []
    (fun _ => TsOption.ok "") (fun _ => true) 1

/-- A run with the unparsable explicit peering address. -/
def bad_addr_run : RunResult :=
  run_server demo_env bad_addr_cfg no_files []
    (fun _ => TsOption.ok "") (fun _ => true) 1

/-- The scan of get_internal_ip returns the first address accepted by the
private-range and subnet tests, and the loopback address when none is. -/
theorem get_internal_ip_eq_filter (netip netbits : Nat) (addrs : List Nat) :
    get_internal_ip netip netbits addrs
      = (addrs.filter (resolver_accepts netip netbits)).headD loopback_ip := by
  induction addrs with
  | nil => rfl
  | cons ip rest ih =>
      by_cases hp : is_private_ip ip = true
      · by_cases hc : constraint_active netip netbits = true
        · by_cases hs : subnet_match netip netbits ip = true
          · simp [get_internal_ip, resolver_accepts, List.filter_cons, hp, hc, hs]
          · simp [get_internal_ip, resolver_accepts, List.filter_cons, hp, hc, hs, ih]
        · simp [get_internal_ip, resolver_accepts, List.filter_cons, hp, hc]
      · simp [get_internal_ip, resolver_accepts, List.filter_cons, hp, ih]

/-- C3 (amended): the Identity Resolver returns the first local address that
is private and, when the subnet constraint is active, inside the constrained
subnet; when no address passes both tests it returns the loopback address —
in particular, under an active constraint, private addresses outside the
subnet are skipped and never used as a fallback; and the result is always
either a private address or the loopback address. -/
theorem C3_resolver_behavior (netip netbits : Nat) (addrs : List Nat) :
    (get_internal_ip netip netbits addrs
        = (addrs.filter (resolver_accepts netip netbits)).headD loopback_ip)
  ∧ ((∃ ip, ip ∈ addrs ∧ resolver_accepts netip netbits ip = true) →
        get_internal_ip netip netbits addrs ∈ addrs
      ∧ resolver_accepts netip netbits (get_internal_ip netip netbits addrs) = true)
  ∧ ((∀ ip ∈ addrs, resolver_accepts netip netbits ip = false) →
        get_internal_ip netip netbits addrs = loopback_ip)
  ∧ (is_private_ip (get_internal_ip netip netbits addrs) = true
      ∨ get_internal_ip netip netbits addrs = loopback_ip) := by
  have key := get_internal_ip_eq_filter netip netbits addrs
  refine ⟨key, ?_, ?_, ?_⟩
  · rintro ⟨ip, hmem, hacc⟩
    cases hfil : addrs.filter (resolver_accepts netip netbits) with
    | nil =>
        have := (List.filter_eq_nil_iff.mp hfil) ip hmem
        simp [hacc] at this
    | cons a l =>
        have ha : a ∈ addrs.filter (resolver_accepts netip netbits) := by
          rw [hfil]; exact List.mem_cons_self a l
        have hsp := List.mem_filter.mp ha
        rw [key, hfil]
        exact ⟨hsp.1, hsp.2⟩
  · intro hall
    have hfil : addrs.filter (resolver_accepts netip netbits) = [] :=
      List.filter_eq_nil_iff.mpr (by intro a ha; simp [hall a ha])
    rw [key, hfil]; rfl
  · cases hfil : addrs.filter (resolver_accepts netip netbits) with
    | nil => right; rw [key, hfil]; rfl
    | cons a l =>
        left
        have ha : a ∈ addrs.filter (resolver_accepts netip netbits) := by
          rw [hfil]; exact List.mem_cons_self a l
        have hacc := (List.mem_filter.mp ha).2
        simp only [resolver_accepts, Bool.and_eq_true] at hacc
        rw [key, hfil]
        exact hacc.1

/-- C3 counterexample: with the subnet constraint 10.0.0.0/8 active and the
only local address the private 192.168.1.1 (which fails the constraint), the
resolver returns the loopback address and not the unconstrained private
candidate, contradicting the claimed fallback to unconstrained candidates. -/
theorem C3_counterexample :
    is_private_ip 0xC0A80101 = true
  ∧ constraint_active 0x0A000000 8 = true
  ∧ subnet_match 0x0A000000 8 0xC0A80101 = false
  ∧ get_internal_ip 0x0A000000 8 [0xC0A80101] = loopback_ip
  ∧ loopback_ip ∉ [0xC0A80101] := by decide

/-- C5: the node membership load contract. An empty path yields success with
empty content; a missing file yields the 404 read error, which the loader
wraps into its error; an existing empty file yields the distinct empty
configuration error; and non-empty content is returned verbatim. -/
theorem C5_load_contract (fs : FileSys) (path content : String) :
    (fetch_nodes_config fs "" = TsOption.ok "")
  ∧ (fs path = none →
        fetch_file_contents fs path
          = TsOption.err 404 ("File does not exist at: " ++ path))
  ∧ (path ≠ "" → fs path = none →
        fetch_nodes_config fs path = TsOption.err 500
          ("Error reading file containing nodes configuration: "
            ++ ("File does not exist at: " ++ path)))
  ∧ (path ≠ "" → fs path = some "" →
        fetch_nodes_config fs path
          = TsOption.err 500 "File containing nodes configuration is empty.")
  ∧ (path ≠ "" → fs path = some content → content ≠ "" →
        fetch_nodes_config fs path = TsOption.ok content) := by
  refine ⟨by simp [fetch_nodes_config], ?_, ?_, ?_, ?_⟩
  · intro h; simp [fetch_file_contents, h]
  · intro hp h; simp [fetch_nodes_config, fetch_file_contents, hp, h]
  · intro hp h; simp [fetch_nodes_config, fetch_file_contents, hp, h]
  · intro hp h hc; simp [fetch_nodes_config, fetch_file_contents, hp, h, hc]

/-- C10: a non-empty path whose file exists with non-empty content — in
particular whitespace-only content such as a single newline — loads
successfully and verbatim; when the file exists, the empty-configuration
error occurs exactly when the path is configured and the content is the
empty string. -/
theorem C10_whitespace_content (fs : FileSys) (path c : String) :
    (path ≠ "" → fs path = some c → c ≠ "" →
        fetch_nodes_config fs path = TsOption.ok c)
  ∧ (path ≠ "" → fs path = some "\n" →
        fetch_nodes_config fs path = TsOption.ok "\n")
  ∧ (fs path = some c →
        (fetch_nodes_config fs path
            = TsOption.err 500 "File containing nodes configuration is empty."
          ↔ path ≠ "" ∧ c = "")) := by
  refine ⟨?_, ?_, ?_⟩
  · intro hp h hc; simp [fetch_nodes_config, fetch_file_contents, hp, h, hc]
  · intro hp h
    have hne : ("\n" : String) ≠ "" := by decide
    simp [fetch_nodes_config, fetch_file_contents, hp, h, hne]
  · intro h
    by_cases hp : path = ""
    · subst hp; simp [fetch_nodes_config]
    · by_cases hc : c = ""
      · subst hc; simp [fetch_nodes_config, fetch_file_contents, hp, h]
      · simp [fetch_nodes_config, fetch_file_contents, hp, h, hc]

/-- Membership in a list built by an if with an empty else branch implies
membership in the then branch. -/
theorem mem_if_nil {c : Prop} [Decidable c] {l : List Ev} {e : Ev}
    (h : e ∈ (if c then l else [])) : e ∈ l := by
  by_cases hc : c
  · simpa [hc] using h
  · simp [hc] at h

/-- C4: with a successful read, one loop iteration performs the membership
refresh exactly on multiples of 10, the catch-up refresh exactly on
multiples of 3 with the verbose flag true exactly on multiples of 9, the
snapshot exactly on multiples of 60, and advances the counter by one. -/
theorem C4_cadence (t : Nat) (cfg : String) :
    (Ev.refreshNodes cfg ∈ (sched_iter (TsOption.ok cfg) t).events ↔ t % 10 = 0)
  ∧ (∀ v : Bool, Ev.refreshCatchup v ∈ (sched_iter (TsOption.ok cfg) t).events
        ↔ t % 3 = 0 ∧ v = (t % 9 == 0))
  ∧ (Ev.doSnapshot ∈ (sched_iter (TsOption.ok cfg) t).events ↔ t % 60 = 0)
  ∧ (sched_iter (TsOption.ok cfg) t).counter = t + 1 := by
  by_cases h10 : t % 10 = 0 <;> by_cases h3 : t % 3 = 0 <;> by_cases h60 : t % 60 = 0 <;>
    first
      | (exfalso; omega)
      | (refine ⟨?_, fun v => ?_, ?_, ?_⟩ <;>
          simp [sched_iter, finish_iter, h10, h3, h60])

/-- C2 counterexample: at counter 0 the membership refresh fires; when the
read fails, the iteration emits only the warning: the catch-up refresh and
the snapshot (both due at 0) do not run, the counter does not advance, and
the sleep does not happen — contradicting the claim that only the refresh
of that iteration is skipped. -/
theorem C2_counterexample :
    sched_iter (TsOption.err 500 "Error reading file containing nodes configuration: boom") 0
      = ⟨[Ev.warnRefreshFailed "Error reading file containing nodes configuration: boom"],
         0, false⟩
  ∧ Ev.refreshCatchup true
      ∉ (sched_iter (TsOption.err 500 "Error reading file containing nodes configuration: boom") 0).events
  ∧ Ev.doSnapshot
      ∉ (sched_iter (TsOption.err 500 "Error reading file containing nodes configuration: boom") 0).events
  ∧ Ev.sleepOneSec
      ∉ (sched_iter (TsOption.err 500 "Error reading file containing nodes configuration: boom") 0).events := by
  decide

/-- C2 (amended): on an iteration where the membership refresh fires and the
read fails, the failure is logged and the continue statement abandons the
whole iteration — the catch-up and snapshot tasks do not evaluate, the
counter stays unchanged and no sleep occurs before the next quit check; on
iterations where the refresh does not fire the read result is never
consulted and the iteration proceeds normally. -/
theorem C2_refresh_failure_aborts_iteration (t : Nat) (code : Int) (msg : String) :
    (t % 10 = 0 →
        sched_iter (TsOption.err code msg) t = ⟨[Ev.warnRefreshFailed msg], t, false⟩)
  ∧ (t % 10 ≠ 0 →
        sched_iter (TsOption.err code msg) t = finish_iter [] t
      ∧ sched_iter (TsOption.err code msg) t = sched_iter (TsOption.ok "") t) := by
  constructor
  · intro h10; simp [sched_iter, h10]
  · intro h10; simp [sched_iter, h10]

/-- Every event of a completed iteration tail is either carried over from the
refresh step or a loop body event. -/
theorem finish_iter_mem (evs : List Ev) (t : Nat) (e : Ev)
    (he : e ∈ (finish_iter evs t).events) : e ∈ evs ∨ loop_ev e = true := by
  by_cases h3 : t % 3 = 0 <;> by_cases h60 : t % 60 = 0
  · simp [finish_iter, h3, h60] at he
    rcases he with h | rfl | rfl | rfl
    · exact Or.inl h
    all_goals exact Or.inr rfl
  · simp [finish_iter, h3, h60] at he
    rcases he with h | rfl | rfl
    · exact Or.inl h
    all_goals exact Or.inr rfl
  · simp [finish_iter, h3, h60] at he
    rcases he with h | rfl | rfl
    · exact Or.inl h
    all_goals exact Or.inr rfl
  · simp [finish_iter, h3, h60] at he
    rcases he with h | rfl
    · exact Or.inl h
    · exact Or.inr rfl

/-- Every event one loop iteration emits is a loop body event. -/
theorem sched_iter_mem (fetch : TsOption String) (t : Nat) (e : Ev)
    (he : e ∈ (sched_iter fetch t).events) : loop_ev e = true := by
  by_cases h10 : t % 10 = 0
  · cases fetch with
    | ok cfg =>
        simp only [sched_iter, h10, if_true] at he
        rcases finish_iter_mem _ _ _ he with h | h
        · simp only [List.mem_singleton] at h; subst h; rfl
        · exact h
    | err code msg =>
        simp [sched_iter, h10] at he
        subst he; rfl
  · simp only [sched_iter, h10, if_false] at he
    rcases finish_iter_mem _ _ _ he with h | h
    · simp at h
    · exact h

/-- Every event the maintenance loop emits is a loop body event; the shutdown
and teardown events never occur inside the loop. -/
theorem sched_loop_mem (fetches : Nat → TsOption String) (quit : Nat → Bool) :
    ∀ fuel k t e, e ∈ (sched_loop fetches quit fuel k t).1 → loop_ev e = true := by
  intro fuel
  induction fuel with
  | zero => intro k t e h; simp [sched_loop] at h
  | succ fuel ih =>
      intro k t e h
      by_cases hk : quit k = true
      · simp [sched_loop, hk] at h
      · simp only [sched_loop, hk] at h
        rw [if_neg (by simp [hk])] at h
        rcases List.mem_append.mp h with h | h
        · exact sched_iter_mem _ _ _ h
        · exact ih _ _ _ h

/-- A loop body event is a pre-shutdown event. -/
theorem loop_ev_pre_ev (e : Ev) (h : loop_ev e = true) : pre_ev e = true := by
  cases e <;> simp [loop_ev, pre_ev] at h ⊢

/-- When the quit flag is observed true at a loop-condition check, the loop
exits at once: the iteration body does not run again. -/
theorem sched_loop_quit_now (fetches : Nat → TsOption String) (quit : Nat → Bool)
    (fuel k t : Nat) (h : quit k = true) :
    sched_loop fetches quit (fuel + 1) k t = ([], some t) := by
  simp [sched_loop, h]

/-- Once the quit flag is true at some check within fuel and stays true, the
loop terminates. -/
theorem sched_loop_exits (fetches : Nat → TsOption String) (quit : Nat → Bool) :
    ∀ fuel m k t, (∀ i j, i ≤ j → quit i = true → quit j = true) →
      quit (k + m) = true → m < fuel →
      ((sched_loop fetches quit fuel k t).2).isSome = true := by
  intro fuel
  induction fuel with
  | zero => intro m k t _ _ hm; omega
  | succ fuel ih =>
      intro m k t hmono hq hm
      by_cases hk : quit k = true
      · simp [sched_loop, hk]
      · have hm0 : m ≠ 0 := by
          intro h0
          rw [h0, Nat.add_zero] at hq
          exact hk hq
        have hq2 : quit ((k + 1) + (m - 1)) = true := by
          have heq : (k + 1) + (m - 1) = k + m := by omega
          rw [heq]; exact hq
        have hnext := ih (m - 1) (k + 1) (sched_iter (fetches k) t).counter
          hmono hq2 (by omega)
        simp [sched_loop, hk, hnext]

/-- The successful bootstrap path of start_raft_server: with a readable nodes
configuration, a parsable peering address and successful service, listener
and state starts, the call runs the loop and, once quit is observed, emits
the shutdown block in source order and returns 0. -/
theorem start_raft_server_success (env : RaftEnv) (fs : FileSys)
    (nodes addr : String) (netip netbits : Nat) (addrs : List Nat)
    (fetches : Nat → TsOption String) (quit : Nat → Bool) (fuel : Nat)
    (c : String) (t : Nat)
    (hfetch : fetch_nodes_config fs nodes = TsOption.ok c)
    (hparse : peering_parse_ok env addr netip netbits addrs = true)
    (hadd : env.addServiceOk = true) (hsrv : env.serverStartOk = true)
    (hrsm : env.rsmStartOk = true)
    (hloop : (sched_loop fetches quit fuel 0 0).2 = some t) :
    start_raft_server env fs nodes addr netip netbits addrs fetches quit fuel
      = ((if nodes = "" then [Ev.logSingleNode] else [])
          ++ (sched_loop fetches quit fuel 0 0).1 ++ shutdown_tail,
         Outcome.ret 0) := by
  simp [start_raft_server, hfetch, hparse, hadd, hsrv, hrsm, hloop]

/-- The successful path of run_server: validation passes, all subsystems are
constructed, the raft thread completes its loop and teardown, and run_server
returns the API loop result. -/
theorem run_server_good (env : RaftEnv) (cfg : ServerConfig) (fs : FileSys)
    (addrs : List Nat) (fetches : Nat → TsOption String) (quit : Nat → Bool)
    (fuel : Nat) (c : String) (t : Nat)
    (hd : cfg.data_dir_exists = true) (hm : cfg.master = "")
    (hfetch : fetch_nodes_config fs cfg.nodes = TsOption.ok c)
    (hparse : peering_parse_ok env cfg.peering_address cfg.netip cfg.netbits addrs = true)
    (hadd : env.addServiceOk = true) (hsrv : env.serverStartOk = true)
    (hrsm : env.rsmStartOk = true)
    (hloop : (sched_loop fetches quit fuel 0 0).2 = some t) :
    run_server env cfg fs addrs fetches quit fuel
      = ⟨(if cfg.search_only_api_key ≠ "" then [Ev.warnSearchOnlyKey] else [])
           ++ [Ev.poolsCreated, Ev.storesCreated, Ev.apiServerCreated,
               Ev.indexerCreated, Ev.rsmCreated, Ev.raftThreadSpawn]
           ++ [Ev.apiServe],
         (Ev.indexThreadSpawn
            :: ((if cfg.nodes = "" then [Ev.logSingleNode] else [])
                 ++ (sched_loop fetches quit fuel 0 0).1 ++ shutdown_tail))
           ++ teardown_tail,
         Outcome.ret api_loop_ret_code⟩ := by
  have hsrs := start_raft_server_success env fs cfg.nodes cfg.peering_address
    cfg.netip cfg.netbits addrs fetches quit fuel c t hfetch hparse hadd hsrv hrsm hloop
  simp [run_server, hd, hm, hsrs]

/-- On the successful bootstrap path, the peering thread trace is some
prefix of pre-shutdown events followed by the eight shutdown steps in source
order, none of which occurs in the prefix. -/
theorem peering_trace_shape (env : RaftEnv) (cfg : ServerConfig) (fs : FileSys)
    (addrs : List Nat) (fetches : Nat → TsOption String) (quit : Nat → Bool)
    (fuel : Nat) (c : String) (t : Nat)
    (hd : cfg.data_dir_exists = true) (hm : cfg.master = "")
    (hfetch : fetch_nodes_config fs cfg.nodes = TsOption.ok c)
    (hparse : peering_parse_ok env cfg.peering_address cfg.netip cfg.netbits addrs = true)
    (hadd : env.addServiceOk = true) (hsrv : env.serverStartOk = true)
    (hrsm : env.rsmStartOk = true)
    (hloop : (sched_loop fetches quit fuel 0 0).2 = some t) :
    ∃ p, (run_server env cfg fs addrs fetches quit fuel).peering = p ++ shutdown_seq
      ∧ ∀ e ∈ shutdown_seq, e ∉ p := by
  rw [run_server_good env cfg fs addrs fetches quit fuel c t hd hm hfetch hparse
    hadd hsrv hrsm hloop]
  refine ⟨Ev.indexThreadSpawn
      :: ((if cfg.nodes = "" then [Ev.logSingleNode] else [])
           ++ (sched_loop fetches quit fuel 0 0).1), ?_, ?_⟩
  · simp [shutdown_seq, List.append_assoc]
  · intro e he
    have hf : pre_ev e = false := by
      simp [shutdown_seq, shutdown_tail, teardown_tail] at he
      rcases he with rfl | rfl | rfl | rfl | rfl | rfl | rfl | rfl <;> rfl
    intro hmem
    rcases List.mem_cons.mp hmem with rfl | hmem
    · simp [pre_ev] at hf
    · rcases List.mem_append.mp hmem with h | h
      · have hls := mem_if_nil h
        simp only [List.mem_singleton] at hls
        subst hls
        simp [pre_ev] at hf
      · have hl := sched_loop_mem fetches quit fuel 0 0 e h
        rw [loop_ev_pre_ev e hl] at hf
        simp at hf

/-- C1 (amended): during shutdown the peering thread first calls replication
state shutdown, then stops the peering listener and joins it (the tail of
start_raft_server), and only after that stops the batch indexer, joins its
thread, shuts down the two worker pools and stops the API server; these
eight steps are the final events of the peering thread, in this order, each
occurring only there. -/
theorem C1_shutdown_order (env : RaftEnv) (cfg : ServerConfig) (fs : FileSys)
    (addrs : List Nat) (fetches : Nat → TsOption String) (quit : Nat → Bool)
    (fuel : Nat) (c : String) (t : Nat)
    (hd : cfg.data_dir_exists = true) (hm : cfg.master = "")
    (hfetch : fetch_nodes_config fs cfg.nodes = TsOption.ok c)
    (hparse : peering_parse_ok env cfg.peering_address cfg.netip cfg.netbits addrs = true)
    (hadd : env.addServiceOk = true) (hsrv : env.serverStartOk = true)
    (hrsm : env.rsmStartOk = true)
    (hloop : (sched_loop fetches quit fuel 0 0).2 = some t) :
    ∃ p, (run_server env cfg fs addrs fetches quit fuel).peering
        = p ++ ([Ev.rsmShutdown, Ev.raftServerStop, Ev.raftServerJoin]
                 ++ [Ev.indexerStop, Ev.indexerThreadJoin, Ev.serverPoolShutdown,
                     Ev.appPoolShutdown, Ev.apiServerStop])
      ∧ ∀ e ∈ ([Ev.rsmShutdown, Ev.raftServerStop, Ev.raftServerJoin]
                 ++ [Ev.indexerStop, Ev.indexerThreadJoin, Ev.serverPoolShutdown,
                     Ev.appPoolShutdown, Ev.apiServerStop]), e ∉ p :=
  peering_trace_shape env cfg fs addrs fetches quit fuel c t hd hm hfetch hparse
    hadd hsrv hrsm hloop

/-- C1 witness: the concrete single-node run, with the whole peering trace
computed; replication state shutdown and the listener stop and join come
before the indexer, pool and server teardown. -/
theorem C1_shutdown_order_witness :
    ∃ p, demo_run.peering
        = p ++ ([Ev.rsmShutdown, Ev.raftServerStop, Ev.raftServerJoin]
                 ++ [Ev.indexerStop, Ev.indexerThreadJoin, Ev.serverPoolShutdown,
                     Ev.appPoolShutdown, Ev.apiServerStop])
      ∧ ∀ e ∈ ([Ev.rsmShutdown, Ev.raftServerStop, Ev.raftServerJoin]
                 ++ [Ev.indexerStop, Ev.indexerThreadJoin, Ev.serverPoolShutdown,
                     Ev.appPoolShutdown, Ev.apiServerStop]), e ∉ p :=
  C1_shutdown_order demo_env demo_cfg no_files [] (fun _ => TsOption.ok "")
    (fun _ => true) 1 "" 0 rfl rfl rfl (by decide) rfl rfl rfl rfl

/-- C1 counterexample: in the concrete single-node run the peering thread
calls replication state shutdown strictly before it stops the batch indexer
— after the first indexer stop no replication shutdown occurs — refuting the
claimed order in which the indexer, pools and API server are torn down
before the Replication State Machine shutdown. -/
theorem C1_counterexample :
    demo_run.peering
      = [Ev.indexThreadSpawn, Ev.logSingleNode, Ev.rsmShutdown, Ev.raftServerStop,
         Ev.raftServerJoin, Ev.indexerStop, Ev.indexerThreadJoin,
         Ev.serverPoolShutdown, Ev.appPoolShutdown, Ev.apiServerStop]
  ∧ Ev.rsmShutdown ∈ demo_run.peering
  ∧ Ev.indexerStop ∈ demo_run.peering
  ∧ Ev.rsmShutdown ∉ demo_run.peering.dropWhile (fun e => !(e == Ev.indexerStop)) := by
  decide

/-- C6 (amended): an existing but empty nodes file makes startup abort with
the nodes configuration error through exit(-1), but the abort happens on the
peering thread: the worker pools have been created and both the peering
thread and the batch indexing thread have been spawned before it. -/
theorem C6_empty_nodes_abort (env : RaftEnv) (cfg : ServerConfig) (fs : FileSys)
    (addrs : List Nat) (fetches : Nat → TsOption String) (quit : Nat → Bool)
    (fuel : Nat)
    (hd : cfg.data_dir_exists = true) (hm : cfg.master = "")
    (hp : cfg.nodes ≠ "") (hfs : fs cfg.nodes = some "") :
    (run_server env cfg fs addrs fetches quit fuel).outcome = Outcome.exited (-1)
  ∧ Ev.errNodesConfig "File containing nodes configuration is empty."
      ∈ (run_server env cfg fs addrs fetches quit fuel).peering
  ∧ Ev.poolsCreated ∈ (run_server env cfg fs addrs fetches quit fuel).mainPre
  ∧ Ev.raftThreadSpawn ∈ (run_server env cfg fs addrs fetches quit fuel).mainPre
  ∧ Ev.indexThreadSpawn ∈ (run_server env cfg fs addrs fetches quit fuel).peering := by
  have hfetch : fetch_nodes_config fs cfg.nodes
      = TsOption.err 500 "File containing nodes configuration is empty." := by
    simp [fetch_nodes_config, fetch_file_contents, hp, hfs]
  simp [run_server, start_raft_server, hd, hm, hfetch]

/-- C6 witness: the concrete run against the existing empty nodes file. -/
theorem C6_empty_nodes_abort_witness :
    empty_nodes_run.outcome = Outcome.exited (-1)
  ∧ Ev.errNodesConfig "File containing nodes configuration is empty."
      ∈ empty_nodes_run.peering
  ∧ Ev.poolsCreated ∈ empty_nodes_run.mainPre
  ∧ Ev.raftThreadSpawn ∈ empty_nodes_run.mainPre
  ∧ Ev.indexThreadSpawn ∈ empty_nodes_run.peering :=
  C6_empty_nodes_abort demo_env empty_nodes_cfg empty_nodes_fs []
    (fun _ => TsOption.ok "") (fun _ => true) 1 rfl rfl (by decide) (by decide)

/-- C6 counterexample: in the concrete run against the empty nodes file the
process does abort with the config error, but the worker pools were created
and the peering and indexing threads were spawned before the abort,
refuting the claim that no thread or pool exists by then. -/
theorem C6_counterexample :
    empty_nodes_run.outcome = Outcome.exited (-1)
  ∧ Ev.poolsCreated ∈ empty_nodes_run.mainPre
  ∧ Ev.raftThreadSpawn ∈ empty_nodes_run.mainPre
  ∧ Ev.indexThreadSpawn ∈ empty_nodes_run.peering := by decide

/-- C7: the quit flag starts false and the only writes to it set it to true
(monotone, idempotent, never reset); a quit observed true at a check makes
the loop exit immediately with no further iteration; under a monotone quit
schedule that becomes true the loop terminates; and on the successful path
each of the eight shutdown steps appears exactly once in the peering thread
trace, so the shutdown sequence runs to completion exactly once. -/
theorem C7_quit_signal (fetches : Nat → TsOption String) (quit : Nat → Bool)
    (env : RaftEnv) (cfg : ServerConfig) (fs : FileSys) (addrs : List Nat)
    (n fuel k t : Nat) :
    quit_raft_service_init = false
  ∧ (∀ b, catch_interrupt b = true)
  ∧ (∀ b, catch_interrupt (catch_interrupt b) = catch_interrupt b)
  ∧ (quit k = true → sched_loop fetches quit (fuel + 1) k t = ([], some t))
  ∧ ((∀ i j, i ≤ j → quit i = true → quit j = true) → quit n = true → n < fuel →
        ((sched_loop fetches quit fuel 0 0).2).isSome = true)
  ∧ (∀ c t2, cfg.data_dir_exists = true → cfg.master = "" →
        fetch_nodes_config fs cfg.nodes = TsOption.ok c →
        peering_parse_ok env cfg.peering_address cfg.netip cfg.netbits addrs = true →
        env.addServiceOk = true → env.serverStartOk = true → env.rsmStartOk = true →
        (sched_loop fetches quit fuel 0 0).2 = some t2 →
        ∀ e ∈ shutdown_seq,
          ((run_server env cfg fs addrs fetches quit fuel).peering).count e = 1) := by
  refine ⟨rfl, fun _ => rfl, fun _ => rfl, ?_, ?_, ?_⟩
  · intro h; exact sched_loop_quit_now fetches quit fuel k t h
  · intro hmono hq hfuel
    refine sched_loop_exits fetches quit fuel n 0 0 hmono ?_ hfuel
    rw [Nat.zero_add]; exact hq
  · intro c2 t2 hd hm hfetch hparse hadd hsrv hrsm hloop e he
    obtain ⟨p, heq, hnot⟩ := peering_trace_shape env cfg fs addrs fetches quit fuel
      c2 t2 hd hm hfetch hparse hadd hsrv hrsm hloop
    have hone : ∀ x ∈ shutdown_seq, shutdown_seq.count x = 1 := by decide
    rw [heq, List.count_append, List.count_eq_zero.mpr (hnot e he), hone e he]

/-- C8 (amended): a configured peering address that fails to parse makes
start_raft_server log the error and return -1 — not abort through exit —
after which the peering thread tears down the indexer, the pools and the API
server, so the process shuts down through the normal path and run_server
returns the API loop result; the API loop is still entered on the main
thread. -/
theorem C8_parse_failure_graceful (env : RaftEnv) (cfg : ServerConfig) (fs : FileSys)
    (addrs : List Nat) (fetches : Nat → TsOption String) (quit : Nat → Bool)
    (fuel : Nat) (c : String)
    (hd : cfg.data_dir_exists = true) (hm : cfg.master = "")
    (hfetch : fetch_nodes_config fs cfg.nodes = TsOption.ok c)
    (hpa : cfg.peering_address ≠ "")
    (hfail : env.str2ipOk cfg.peering_address = false) :
    (start_raft_server env fs cfg.nodes cfg.peering_address cfg.netip cfg.netbits
        addrs fetches quit fuel).2 = Outcome.ret (-1)
  ∧ (run_server env cfg fs addrs fetches quit fuel).outcome
      = Outcome.ret api_loop_ret_code
  ∧ Ev.errParseAddress ∈ (run_server env cfg fs addrs fetches quit fuel).peering
  ∧ Ev.apiServerStop ∈ (run_server env cfg fs addrs fetches quit fuel).peering
  ∧ Ev.apiServe ∈ (run_server env cfg fs addrs fetches quit fuel).mainPre := by
  have hparse : peering_parse_ok env cfg.peering_address cfg.netip cfg.netbits addrs
      = false := by
    simp [peering_parse_ok, hpa, hfail]
  have hsrs : start_raft_server env fs cfg.nodes cfg.peering_address cfg.netip
      cfg.netbits addrs fetches quit fuel
      = ((if cfg.nodes = "" then [Ev.logSingleNode] else []) ++ [Ev.errParseAddress],
         Outcome.ret (-1)) := by
    simp [start_raft_server, hfetch, hparse]
  refine ⟨by simp [hsrs], ?_, ?_, ?_, ?_⟩ <;>
    simp [run_server, hd, hm, hsrs, teardown_tail]

/-- C8 witness: the concrete run with the rejected explicit address. -/
theorem C8_parse_failure_graceful_witness :
    (start_raft_server demo_env no_files "" "not.an.ip" 0 0 []
        (fun _ => TsOption.ok "") (fun _ => true) 1).2 = Outcome.ret (-1)
  ∧ bad_addr_run.outcome = Outcome.ret api_loop_ret_code
  ∧ Ev.errParseAddress ∈ bad_addr_run.peering
  ∧ Ev.apiServerStop ∈ bad_addr_run.peering
  ∧ Ev.apiServe ∈ bad_addr_run.mainPre :=
  C8_parse_failure_graceful demo_env bad_addr_cfg no_files []
    (fun _ => TsOption.ok "") (fun _ => true) 1 "" rfl rfl rfl (by decide) (by decide)

/-- C8 counterexample: with the unparsable explicit peering address the run
ends with return code 0 — the modelled API loop result after a clean stop —
and the main thread still enters the API loop; the process neither avoids
serving nor terminates with a nonzero status. -/
theorem C8_counterexample :
    bad_addr_run.outcome = Outcome.ret 0
  ∧ Ev.errParseAddress ∈ bad_addr_run.peering
  ∧ Ev.apiServe ∈ bad_addr_run.mainPre
  ∧ bad_addr_run.outcome ≠ Outcome.exited (-1) := by decide

/-- C9: the exit status mapping. A missing data directory or the deprecated
master flag makes run_server return 1; a configured but missing log
directory makes init_root_logger return 1; failure of peering service
registration, of the listener start or of the replication state start makes
the process abort through exit(-1); and a normal run ends with status 0. -/
theorem C9_exit_codes (env : RaftEnv) (cfg : ServerConfig) (fs : FileSys)
    (addrs : List Nat) (fetches : Nat → TsOption String) (quit : Nat → Bool)
    (fuel : Nat) (log_dir : String) (dir_exists : String → Bool) :
    (cfg.data_dir_exists = false →
        (run_server env cfg fs addrs fetches quit fuel).outcome = Outcome.ret 1)
  ∧ (cfg.data_dir_exists = true → cfg.master ≠ "" →
        (run_server env cfg fs addrs fetches quit fuel).outcome = Outcome.ret 1)
  ∧ (log_dir ≠ "" → dir_exists log_dir = false →
        init_root_logger log_dir dir_exists = 1)
  ∧ (∀ c, cfg.data_dir_exists = true → cfg.master = "" →
        fetch_nodes_config fs cfg.nodes = TsOption.ok c →
        peering_parse_ok env cfg.peering_address cfg.netip cfg.netbits addrs = true →
        env.addServiceOk = false →
        (run_server env cfg fs addrs fetches quit fuel).outcome = Outcome.exited (-1))
  ∧ (∀ c, cfg.data_dir_exists = true → cfg.master = "" →
        fetch_nodes_config fs cfg.nodes = TsOption.ok c →
        peering_parse_ok env cfg.peering_address cfg.netip cfg.netbits addrs = true →
        env.addServiceOk = true → env.serverStartOk = false →
        (run_server env cfg fs addrs fetches quit fuel).outcome = Outcome.exited (-1))
  ∧ (∀ c, cfg.data_dir_exists = true → cfg.master = "" →
        fetch_nodes_config fs cfg.nodes = TsOption.ok c →
        peering_parse_ok env cfg.peering_address cfg.netip cfg.netbits addrs = true →
        env.addServiceOk = true → env.serverStartOk = true → env.rsmStartOk = false →
        (run_server env cfg fs addrs fetches quit fuel).outcome = Outcome.exited (-1))
  ∧ (∀ c t, cfg.data_dir_exists = true → cfg.master = "" →
        fetch_nodes_config fs cfg.nodes = TsOption.ok c →
        peering_parse_ok env cfg.peering_address cfg.netip cfg.netbits addrs = true →
        env.addServiceOk = true → env.serverStartOk = true → env.rsmStartOk = true →
        (sched_loop fetches quit fuel 0 0).2 = some t →
        (run_server env cfg fs addrs fetches quit fuel).outcome = Outcome.ret 0) := by
  refine ⟨?_, ?_, ?_, ?_, ?_, ?_, ?_⟩
  · intro hd; simp [run_server, hd]
  · intro hd hm; simp [run_server, hd, hm]
  · intro hl hde; simp [init_root_logger, hl, hde]
  · intro c hd hm hfetch hparse hadd
    simp [run_server, start_raft_server, hd, hm, hfetch, hparse, hadd]
  · intro c hd hm hfetch hparse hadd hsrv
    simp [run_server, start_raft_server, hd, hm, hfetch, hparse, hadd, hsrv]
  · intro c hd hm hfetch hparse hadd hsrv hrsm
    simp [run_server, start_raft_server, hd, hm, hfetch, hparse, hadd, hsrv, hrsm]
  · intro c t hd hm hfetch hparse hadd hsrv hrsm hloop
    rw [run_server_good env cfg fs addrs fetches quit fuel c t hd hm hfetch hparse
      hadd hsrv hrsm hloop]
    rfl

/-- Concrete loop iterations: at tick 0 all three tasks fire and the
catch-up is verbose; at tick 3 only a quiet catch-up fires; at tick 9 a
verbose catch-up; at tick 10 only the refresh; at tick 60 refresh, quiet
catch-up and snapshot. -/
theorem sched_iter_eval_samples :
    (sched_iter (TsOption.ok "n1:8107") 0).events
      = [Ev.refreshNodes "n1:8107", Ev.refreshCatchup true, Ev.doSnapshot, Ev.sleepOneSec]
  ∧ (sched_iter (TsOption.ok "n1:8107") 3).events
      = [Ev.refreshCatchup false, Ev.sleepOneSec]
  ∧ (sched_iter (TsOption.ok "n1:8107") 9).events
      = [Ev.refreshCatchup true, Ev.sleepOneSec]
  ∧ (sched_iter (TsOption.ok "n1:8107") 10).events
      = [Ev.refreshNodes "n1:8107", Ev.sleepOneSec]
  ∧ (sched_iter (TsOption.ok "n1:8107") 60).events
      = [Ev.refreshNodes "n1:8107", Ev.refreshCatchup false, Ev.doSnapshot,
         Ev.sleepOneSec] := by
  decide

/-- Concrete end-to-end evaluation: the single-node demo run finishes with
status 0 and its main thread enters the API loop. -/
theorem demo_run_eval :
    demo_run.outcome = Outcome.ret 0 ∧ Ev.apiServe ∈ demo_run.mainPre := by decide

/-- Concrete resolver evaluations: without a constraint the first private
address wins over an earlier public one, and with no private address the
loopback is returned. -/
theorem get_internal_ip_eval_samples :
    get_internal_ip 0 0 [0x08080808, 0x0A000005] = 0x0A000005
  ∧ get_internal_ip 0 0 [0x08080808] = loopback_ip
  ∧ get_internal_ip 0xC0A80000 16 [0x0A000005, 0xC0A80101] = 0xC0A80101 := by decide

end Typesense
